import Mathlib

/-!
Verification of the turn-based practice engine of the friends_chatbot
repository: a shallow embedding of
`functions/src/services/text-similarity-service.ts` and
`functions/src/services/practice-session-manager.ts`.

Modelling conventions:
* JavaScript strings are modelled as `List Char` (abbreviated `Str`);
  string literals are written `"...".data`.
* JavaScript numbers are modelled as exact rationals `ℚ` (the scores the
  claims mention — 1.0, 0.95, 0 — and the branch thresholds are exact in
  this model); `Math.round` is `⌊x + 1/2⌋`.
* The external embedding service (`openai.embeddings.create`) and the real
  square root used by the cosine norm (ℚ has no exact square root) are
  abstracted into an `Env` record threaded through the similarity engine;
  no claim depends on the numeric value of the square root.
* Exceptions are modelled with `Except`: the body of the `try` block of
  `calculateSimilarity` is `calculateSimilarityTry` and the `catch` clause
  is `catchScoring`.
-/

/-- JavaScript strings, modelled as lists of characters. -/
abbrev Str := List Char

/-- The apostrophe character (code point 39), used in feedback strings. -/
def apos : Char := Char.ofNat 39

/-- ASCII whitespace recognised by JavaScript `\s` and `trim` (the
Unicode space classes are irrelevant to this corpus). -/
def jsSpace (c : Char) : Bool :=
  c = ' ' || c = '\t' || c = '\n' || c = '\r' || c = Char.ofNat 11 || c = Char.ofNat 12

/-- JavaScript `String.prototype.trim`: drop whitespace at both ends. -/
def jsTrim (s : Str) : Str :=
  ((s.dropWhile jsSpace).reverse.dropWhile jsSpace).reverse

/-- One step of splitting a string at every character satisfying `p`
(JavaScript `split` against a single-character class), accumulating the
current token in reverse. -/
def splitPGo (p : Char → Bool) (acc : Str) : Str → List Str
  | [] => [acc.reverse]
  | c :: cs => if p c then acc.reverse :: splitPGo p [] cs else splitPGo p (c :: acc) cs

/-- JavaScript `s.split(sep)` for a single-character separator. -/
def jsSplit (sep : Char) (s : Str) : List Str :=
  splitPGo (fun c => c = sep) [] s

/-- Scanner for the global regex replaces `/\([^)]*\)/g` and
`/\[[^\]]*\]/g` of `extractDialogueOnly`: a span opened by `op` is removed
through the first following `cl`; an `op` with no later `cl` matches
nothing and is kept literally (the flag records being inside a span, which
is only entered when its closing character exists). -/
def stripSpansGo (op cl : Char) : Bool → Str → Str
  | _, [] => []
  | true, c :: cs => if c = cl then stripSpansGo op cl false cs else stripSpansGo op cl true cs
  | false, c :: cs =>
      if c = op ∧ cl ∈ cs then stripSpansGo op cl true cs
      else c :: stripSpansGo op cl false cs

/-- Remove every `op … cl` span. -/
def stripSpans (op cl : Char) (s : Str) : Str :=
  stripSpansGo op cl false s

/-- Collapse every maximal run of whitespace to a single space, the value
of JavaScript `s.split(/\s+/).join(' ')` (the flag records whether the
previous character was whitespace). -/
def collapseWsGo : Bool → Str → Str
  | _, [] => []
  | prevSp, c :: cs =>
      if jsSpace c then
        (if prevSp then collapseWsGo true cs else ' ' :: collapseWsGo true cs)
      else c :: collapseWsGo false cs

/-- JavaScript `s.split(/\s+/).join(' ')`. -/
def collapseWs (s : Str) : Str :=
  collapseWsGo false s

/-- JavaScript `String.prototype.toLowerCase` (ASCII range). -/
def lowerStr (s : Str) : Str :=
  s.map Char.toLower

/-- The punctuation class `[.!?,"'-]` removed by `cleanTextForComparison`. -/
def isPunct (c : Char) : Bool :=
  c = '.' || c = '!' || c = '?' || c = ',' || c = '"' || c = apos || c = '-'

/-- `extractDialogueOnly` (text-similarity-service.ts lines 150-161):
strip `(...)` spans, then `[...]` spans, collapse whitespace, trim. -/
def extractDialogueOnly (text : Str) : Str :=
  jsTrim (collapseWs (stripSpans '[' ']' (stripSpans '(' ')' text)))

/-- `cleanTextForComparison` (lines 166-177): lowercase, trim, remove the
punctuation class, replace dashes by spaces (a no-op, since the previous
step already removed every dash, kept for faithfulness), collapse
whitespace.  Note the result is not re-trimmed. -/
def cleanTextForComparison (text : Str) : Str :=
  collapseWs (((jsTrim (lowerStr text)).filter (fun c => !isPunct c)).map
    (fun c => if c = '-' then ' ' else c))

/-- Number of positions at which two same-length strings differ (the
counting loop of `isVeryCloseMatch`). -/
def countDiffs (t1 t2 : Str) : Nat :=
  (t1.zip t2).countP (fun p => p.1 ≠ p.2)

/-- `isVeryCloseMatch` (lines 182-210): same length and at most one
differing position, or lengths differing by one and deleting some
character of the longer yields the shorter. -/
def isVeryCloseMatch (t1 t2 : Str) : Bool :=
  if t1.length = t2.length ∧ countDiffs t1 t2 ≤ 1 then
    true
  else if (if t1.length < t2.length then t2.length - t1.length
           else t1.length - t2.length) = 1 then
    let shorter := if t1.length < t2.length then t1 else t2
    let longer := if t1.length < t2.length then t2 else t1
    (List.range longer.length).any (fun i => longer.eraseIdx i = shorter)
  else false

/-- The whitespace-separated words of a string
(`text.split(/\s+/).filter(w => w.length > 0)`; splitting on single
whitespace characters and filtering out empties yields the same tokens as
splitting on whitespace runs). -/
def wordsOf (s : Str) : List Str :=
  (splitPGo jsSpace [] s).filter (fun w => 0 < w.length)

/-- `calculateWordSimilarity` (lines 215-238): Jaccard index over the word
sets, +0.1 bonus for equal cardinality, clamped to 1. -/
def calculateWordSimilarity (t1 t2 : Str) : ℚ :=
  let words1 := (wordsOf t1).dedup
  let words2 := (wordsOf t2).dedup
  if words1.length = 0 ∧ words2.length = 0 then 1
  else if words1.length = 0 ∨ words2.length = 0 then 0
  else
    let inter := (words1.filter (fun w => w ∈ words2)).length
    let union := (words1 ++ words2).dedup.length
    let jaccard : ℚ := (inter : ℚ) / (union : ℚ) +
      (if words1.length = words2.length then (0.1 : ℚ) else 0)
    min 1 jaccard

/-- Inner loop of the Levenshtein row computation of
`calculateCharacterSimilarity`: given the current character `c1` of the
first string, the remaining characters of the second string, the matching
tail of the previous row, and the cell to the left, produce the rest of
the current row. -/
def levRowGo (c1 : Char) : List Char → List Nat → Nat → List Nat
  | [], _, _ => []
  | _ :: _, [], _ => []
  | c2 :: cs, p0 :: prest, left =>
      let v := min (min (prest.headD 0 + 1) (left + 1))
        (p0 + (if c1 = c2 then 0 else 1))
      v :: levRowGo c1 cs prest v

/-- Outer loop of the Levenshtein computation: fold the rows over the
characters of the first string (`i` is the row index). -/
def levLoop (t2 : Str) : List Char → Nat → List Nat → List Nat
  | [], _, prev => prev
  | c1 :: cs, i, prev => levLoop t2 cs (i + 1) ((i + 1) :: levRowGo c1 t2 prev (i + 1))

/-- `calculateCharacterSimilarity` (lines 244-276): normalized Levenshtein
ratio, 0 when either string is empty, operands swapped so the first is the
longer. -/
def calculateCharacterSimilarity (t1 t2 : Str) : ℚ :=
  if t1 = [] ∨ t2 = [] then 0
  else
    let a := if t1.length < t2.length then t2 else t1
    let b := if t1.length < t2.length then t1 else t2
    if b.length = 0 then 0
    else
      let finalRow := levLoop b a 0 (List.range (b.length + 1))
      let dist := finalRow.getLastD 0
      let maxLen := max a.length b.length
      ((maxLen : ℚ) - (dist : ℚ)) / (maxLen : ℚ)

/-- External environment of the similarity engine: the embedding service
(`openai.embeddings.create`, returning the response `data` rows or
failing) and the square-root function used by the cosine norms (abstract,
since ℚ has no exact square root; no claim depends on its values). -/
structure Env where
  embedData : Str → Str → Except Str (List (List ℚ))
  sqrtq : ℚ → ℚ

/-- Dot product of two embedding vectors (the `reduce` at line 296). -/
def dotQ (e1 e2 : List ℚ) : ℚ :=
  ((e1.zip e2).map (fun p => p.1 * p.2)).sum

/-- Norm of an embedding vector: square root of the sum of squares. -/
def normQ (env : Env) (e : List ℚ) : ℚ :=
  env.sqrtq ((e.map (fun a => a * a)).sum)

/-- `calculateEmbeddingSimilarity` (lines 281-311): embed both texts,
return 0 if the service fails, a row is missing, or a norm is zero,
otherwise the cosine similarity floored at 0. -/
def calculateEmbeddingSimilarity (env : Env) (t1 t2 : Str) : ℚ :=
  match env.embedData t1 t2 with
  | .error _ => 0
  | .ok data =>
      match data[0]?, data[1]? with
      | some e1, some e2 =>
          let n1 := normQ env e1
          let n2 := normQ env e2
          if n1 = 0 ∨ n2 = 0 then 0
          else max 0 (dotQ e1 e2 / (n1 * n2))
      | _, _ => 0

/-- Similarity sub-scores (`detailedAnalysis`). -/
structure DetailedAnalysis where
  wordSimilarity : ℚ
  characterSimilarity : ℚ
  embeddingSimilarity : Option ℚ
  exactMatch : Bool
  veryCloseMatch : Bool
deriving DecidableEq, Repr

/-- `SimilarityResult` (text-similarity-service.ts lines 6-17). -/
structure SimilarityResult where
  similarity : ℚ
  isCorrect : Bool
  feedback : Str
  detailedAnalysis : DetailedAnalysis
deriving DecidableEq, Repr

/-- Feedback for the perfect-match and excellent bands. -/
def perfectFeedback : Str := "✅ Excellent! Perfect match!".data

/-- Feedback for the very-close band. -/
def veryCloseFeedback : Str := "✅ Excellent! Very close match!".data

/-- Feedback for the good band. -/
def goodFeedback : Str := "👍 Good! Close enough.".data

/-- Feedback for the partial-credit band. -/
def partialFeedback : Str := "🤔 Not quite right, but you got the idea.".data

/-- Feedback for the failing band, quoting the expected dialogue. -/
def tryAgainFeedback (actualDialogue : Str) : Str :=
  "❌ Try again! The correct line was: ".data ++ apos :: (actualDialogue ++ [apos])

/-- Feedback returned from the scoring error handler. -/
def errorFeedback : Str := "❌ Error evaluating response. Please try again.".data

/-- The zero result produced by the `catch` clause of `calculateSimilarity`
(lines 131-144). -/
def scoringFallback : SimilarityResult :=
  { similarity := 0
    isCorrect := false
    feedback := errorFeedback
    detailedAnalysis :=
      { wordSimilarity := 0
        characterSimilarity := 0
        embeddingSimilarity := none
        exactMatch := false
        veryCloseMatch := false } }

/-- The body of the `try` block of `calculateSimilarity` (lines 33-129).
The `Except` layer is the JavaScript exception channel; every branch of
the translated body returns normally. -/
def calculateSimilarityTry (env : Env) (userInput expectedText : Str) :
    Except Str SimilarityResult :=
  let actualDialogue := extractDialogueOnly expectedText
  let userClean := cleanTextForComparison userInput
  let expectedClean := cleanTextForComparison actualDialogue
  if userClean = expectedClean then
    .ok { similarity := 1
          isCorrect := true
          feedback := perfectFeedback
          detailedAnalysis :=
            { wordSimilarity := 1
              characterSimilarity := 1
              embeddingSimilarity := some 1
              exactMatch := true
              veryCloseMatch := true } }
  else if isVeryCloseMatch userClean expectedClean then
    .ok { similarity := 0.95
          isCorrect := true
          feedback := veryCloseFeedback
          detailedAnalysis :=
            { wordSimilarity := 0.95
              characterSimilarity := 0.95
              embeddingSimilarity := some 0.95
              exactMatch := false
              veryCloseMatch := true } }
  else
    let wordSimilarity := calculateWordSimilarity userClean expectedClean
    let characterSimilarity : ℚ :=
      if expectedClean.length ≤ 20 then
        calculateCharacterSimilarity userClean expectedClean
      else 0
    let final0 : ℚ :=
      if expectedClean.length ≤ 20 then max wordSimilarity characterSimilarity
      else wordSimilarity
    let embeddingSimilarity : Option ℚ :=
      if wordSimilarity < (0.4 : ℚ) ∧ 20 < expectedClean.length then
        some (calculateEmbeddingSimilarity env userClean expectedClean)
      else none
    let finalSimilarity : ℚ :=
      match embeddingSimilarity with
      | some e => max final0 e
      | none => final0
    let isCorrect := finalSimilarity ≥ (0.6 : ℚ)
    let feedback :=
      if finalSimilarity ≥ (0.8 : ℚ) then perfectFeedback
      else if finalSimilarity ≥ (0.6 : ℚ) then goodFeedback
      else if finalSimilarity ≥ (0.4 : ℚ) then partialFeedback
      else tryAgainFeedback actualDialogue
    .ok { similarity := finalSimilarity
          isCorrect := isCorrect
          feedback := feedback
          detailedAnalysis :=
            { wordSimilarity := wordSimilarity
              characterSimilarity := characterSimilarity
              embeddingSimilarity := embeddingSimilarity
              exactMatch := false
              veryCloseMatch := false } }

/-- The `catch` clause of `calculateSimilarity` (lines 131-144): a normal
result passes through, an exception becomes the zero result. -/
def catchScoring : Except Str SimilarityResult → SimilarityResult
  | .ok r => r
  | .error _ => scoringFallback

/-- `calculateSimilarity` (lines 33-145): the guarded scoring pipeline. -/
def calculateSimilarity (env : Env) (userInput expectedText : Str) : SimilarityResult :=
  catchScoring (calculateSimilarityTry env userInput expectedText)

/-- Line kinds of the dialogue parser. -/
inductive LineType where
  | dialogue
  | action
  | narration
deriving DecidableEq, Repr

/-- `DialogueLine` (practice-session-manager.ts lines 7-13). -/
structure DialogueLine where
  line_number : Nat
  type : LineType
  speaker : Option Str
  text : Str
  is_user_line : Bool
deriving DecidableEq, Repr

/-- `PracticeProgress` (lines 18-27): one scored attempt. -/
structure PracticeProgress where
  line_number : Nat
  expected_text : Str
  user_response : Str
  similarity_score : ℚ
  is_correct : Bool
  feedback : Str
  attempt_number : Nat
  timestamp : ℚ
deriving DecidableEq, Repr

/-- Session lifecycle states. -/
inductive SessionStatus where
  | active
  | completed
  | paused
deriving DecidableEq, Repr

/-- `EnhancedPracticeSession` (lines 32-56); timestamps are modelled as
rational milliseconds (the value of `Timestamp.toMillis`). -/
structure Session where
  session_id : Str
  user_id : Str
  episode_id : Str
  character : Str
  scene_number : Nat
  scene_id : Str
  current_line_index : Nat
  total_lines : Nat
  dialogue_lines : List DialogueLine
  correct_answers : Nat
  total_attempts : Nat
  session_progress : List PracticeProgress
  status : SessionStatus
  started_at : ℚ
  completed_at : Option ℚ
  created_at : ℚ
  updated_at : ℚ
deriving DecidableEq, Repr

/-- The user-turn payload of the start/continue responses. -/
structure UserTurn where
  expected : Str
  speaker : Str
  line_number : Nat
deriving DecidableEq, Repr

/-- `PracticeSessionInitResponse` (lines 61-75), without the scene
metadata fields (`scene_context`), which come verbatim from the external
scene store. -/
structure PracticeSessionInitResponse where
  session_id : Str
  total_lines : Nat
  first_context : Str
  user_turn : UserTurn
deriving DecidableEq, Repr

/-- The `session_status` payload of the continue response. -/
structure SessionStatusInfo where
  current_line : Nat
  total_lines : Nat
  correct_answers : Nat
  accuracy : ℚ
deriving DecidableEq, Repr

/-- `PracticeContinueResponse` (lines 80-95). -/
structure PracticeContinueResponse where
  evaluation : SimilarityResult
  next_context : Option Str
  next_user_turn : Option UserTurn
  session_status : SessionStatusInfo
  is_session_complete : Bool
deriving DecidableEq, Repr

/-- `PracticeCompletionResult` (lines 100-108). -/
structure PracticeCompletionResult where
  session_id : Str
  final_score : ℤ
  accuracy : ℚ
  total_lines_practiced : Nat
  correct_answers : Nat
  session_duration_minutes : ℚ
  completed_at : ℚ
deriving DecidableEq, Repr

/-- The typed failure conditions raised by the session manager (each
`throw new Error(...)` of the source). -/
inductive PracticeError where
  | noUserLines
  | sessionNotActive
  | noMoreLines
  | sessionNotYetCompleted
  | missingCompletionTime
deriving DecidableEq, Repr

/-- JavaScript `Math.round`: round half toward positive infinity. -/
def jsRound (q : ℚ) : ℤ :=
  ⌊q + 1 / 2⌋

/-- Classification of one surviving (non-empty trimmed) transcript line at
ordinal `k`, as performed inline by `parseSceneDialogue` (lines 361-390):
a line wrapped in square brackets is an action, a line containing a colon
is dialogue split at the first colon, anything else is narration. -/
def classifyLine (k : Nat) (t : Str) : DialogueLine :=
  if t.head? = some '[' ∧ t.getLast? = some ']' then
    { line_number := k, type := .action, speaker := none, text := t, is_user_line := false }
  else if ':' ∈ t then
    let ci := t.findIdx (fun c => c = ':')
    { line_number := k, type := .dialogue, speaker := some (jsTrim (t.take ci))
      text := jsTrim (t.drop (ci + 1)), is_user_line := false }
  else
    { line_number := k, type := .narration, speaker := none, text := t, is_user_line := false }

/-- The numbering loop of `parseSceneDialogue`: trim each raw line, skip
empties, classify survivors with consecutive line numbers from `k`. -/
def parseGo (k : Nat) : List Str → List DialogueLine
  | [] => []
  | l :: rest =>
    let t := jsTrim l
    if t = [] then parseGo k rest
    else classifyLine k t :: parseGo (k + 1) rest

/-- `parseSceneDialogue` (lines 351-394): split the scene text on
newlines and run the numbering loop from 1. -/
def parseSceneDialogue (sceneText : Str) : List DialogueLine :=
  parseGo 1 (jsSplit '\n' sceneText)

/-- `filterUserLines` (lines 399-407): the dialogue lines whose speaker
equals the practiced character case-insensitively, marked as user lines. -/
def filterUserLines (lines : List DialogueLine) (character : Str) : List DialogueLine :=
  (lines.filter (fun l =>
      l.type == LineType.dialogue &&
      (match l.speaker with
       | some sp => lowerStr sp == lowerStr character
       | none => false))).map
    (fun l => { l with is_user_line := true })

/-- JavaScript `Array.prototype.findIndex` with a 0-based result, `none`
when no element matches. -/
def findIdxFrom? (p : α → Bool) : List α → Option Nat
  | [] => none
  | a :: as => if p a then some 0 else (findIdxFrom? p as).map (· + 1)

/-- JavaScript `Array.prototype.slice` with its negative-index and
clamping semantics. -/
def jsSlice (l : List α) (s e : ℤ) : List α :=
  let n : ℤ := l.length
  let s' := (if s < 0 then max 0 (n + s) else min s n).toNat
  let e' := (if e < 0 then max 0 (n + e) else min e n).toNat
  (l.take e').drop s'

/-- Formatting of one context line: `speaker: text` for dialogue lines
with a (truthy, hence non-empty) speaker, bare text otherwise. -/
def formatContextLine (l : DialogueLine) : Str :=
  if l.type == LineType.dialogue &&
      (match l.speaker with | some sp => !sp.isEmpty | none => false) then
    (match l.speaker with | some sp => sp | none => []) ++ ':' :: ' ' :: l.text
  else l.text

/-- Join formatted lines with newlines (`Array.prototype.join('\n')`). -/
def joinLines (xs : List Str) : Str :=
  (List.intersperse ['\n'] xs).flatten

/-- `getContextBefore` (lines 412-428): slice the `contextLines` array
positions immediately before the position of the target line number, keep
the dialogue and action lines of the slice, format and join them. -/
def getContextBefore (lines : List DialogueLine) (targetLineNumber : Nat)
    (contextLines : Nat) : Str :=
  let idx : ℤ :=
    match findIdxFrom? (fun l => l.line_number = targetLineNumber) lines with
    | some i => (i : ℤ)
    | none => -1
  let contextStart : ℤ := max 0 (idx - (contextLines : ℤ))
  let contextEnd : ℤ := idx
  joinLines (((jsSlice lines contextStart contextEnd).filter
      (fun l => l.type = .dialogue ∨ l.type = .action)).map formatContextLine)

/-- The pure core of `startInteractiveSession` (lines 129-202), after the
external scene lookup has produced the raw scene text and metadata: parse
the scene, select the user lines, fail when there are none, otherwise
build the fresh session record and the initial response. -/
def startInteractiveSession (userId episodeId character : Str) (sceneNumber : Nat)
    (sceneId sessionId : Str) (sceneText : Str) (now : ℚ) :
    Except PracticeError (Session × PracticeSessionInitResponse) :=
  let dialogueLines := parseSceneDialogue sceneText
  let userLines := filterUserLines dialogueLines character
  match userLines with
  | [] => .error .noUserLines
  | firstUserLine :: _ =>
    let session : Session :=
      { session_id := sessionId
        user_id := userId
        episode_id := episodeId
        character := character
        scene_number := sceneNumber
        scene_id := sceneId
        current_line_index := 0
        total_lines := userLines.length
        dialogue_lines := dialogueLines
        correct_answers := 0
        total_attempts := 0
        session_progress := []
        status := .active
        started_at := now
        completed_at := none
        created_at := now
        updated_at := now }
    let contextLines := getContextBefore dialogueLines firstUserLine.line_number 2
    .ok (session,
      { session_id := sessionId
        total_lines := userLines.length
        first_context := contextLines
        user_turn :=
          { expected := firstUserLine.text
            speaker := character
            line_number := firstUserLine.line_number } })

/-- `continuePractice` (lines 207-308), as the pure state transition on
one loaded session record (the Firestore fetch/update are the external
store): check the session is active, locate the current user line, score
the response, append the attempt, bump the counters, advance the cursor,
complete when the cursor reaches the end, and build the response. -/
def continuePractice (env : Env) (session : Session) (userResponse : Str) (now : ℚ) :
    Except PracticeError (Session × PracticeContinueResponse) :=
  if session.status ≠ .active then .error .sessionNotActive
  else
    let userLines := filterUserLines session.dialogue_lines session.character
    match userLines[session.current_line_index]? with
    | none => .error .noMoreLines
    | some currentUserLine =>
      let evaluation := calculateSimilarity env userResponse currentUserLine.text
      let progress : PracticeProgress :=
        { line_number := currentUserLine.line_number
          expected_text := currentUserLine.text
          user_response := userResponse
          similarity_score := evaluation.similarity
          is_correct := evaluation.isCorrect
          feedback := evaluation.feedback
          attempt_number := session.total_attempts + 1
          timestamp := now }
      let s1 : Session :=
        { session with
          session_progress := session.session_progress ++ [progress]
          total_attempts := session.total_attempts + 1
          correct_answers :=
            if evaluation.isCorrect then session.correct_answers + 1
            else session.correct_answers
          current_line_index := session.current_line_index + 1
          updated_at := now }
      let isComplete := userLines.length ≤ s1.current_line_index
      let s2 : Session :=
        if isComplete then { s1 with status := .completed, completed_at := some now }
        else s1
      let nextTurn : Option (Str × UserTurn) :=
        if isComplete then none
        else
          match userLines[s1.current_line_index]? with
          | none => none
          | some nextUserLine =>
              some (getContextBefore s2.dialogue_lines nextUserLine.line_number 2,
                { expected := nextUserLine.text
                  speaker := s2.character
                  line_number := nextUserLine.line_number })
      let accuracy : ℚ :=
        if 0 < s2.total_attempts then
          ((s2.correct_answers : ℚ) / (s2.total_attempts : ℚ)) * 100
        else 0
      .ok (s2,
        { evaluation := evaluation
          next_context := nextTurn.map (·.1)
          next_user_turn := nextTurn.map (·.2)
          session_status :=
            { current_line := s2.current_line_index + 1
              total_lines := userLines.length
              correct_answers := s2.correct_answers
              accuracy := (jsRound (accuracy * 10) : ℚ) / 10 }
          is_session_complete := isComplete })

/-- `completeSession` (lines 324-346): a read-only derivation of the final
metrics of a completed session; any other status is rejected.  A completed
record with no completion timestamp would make the source dereference
`undefined` (`completed_at!.toMillis()`), modelled as a distinct error. -/
def completeSession (session : Session) : Except PracticeError PracticeCompletionResult :=
  if session.status = .completed then
    match session.completed_at with
    | none => .error .missingCompletionTime
    | some completedAt =>
      let durationMs := completedAt - session.started_at
      let durationMinutes : ℚ := (jsRound (durationMs / (1000 * 60) * 10) : ℚ) / 10
      let accuracy : ℚ :=
        if 0 < session.total_attempts then
          ((session.correct_answers : ℚ) / (session.total_attempts : ℚ)) * 100
        else 0
      .ok { session_id := session.session_id
            final_score := jsRound accuracy
            accuracy := (jsRound (accuracy * 10) : ℚ) / 10
            total_lines_practiced := session.total_attempts
            correct_answers := session.correct_answers
            session_duration_minutes := durationMinutes
            completed_at := completedAt }
  else .error .sessionNotYetCompleted

/-- Sessions reachable through the pure core: a session freshly created by
`startInteractiveSession`, or the successor state of a successful
`continuePractice` call on a reachable session. -/
inductive Reachable : Session → Prop where
  | start (userId episodeId character : Str) (sceneNumber : Nat)
      (sceneId sessionId sceneText : Str) (now : ℚ)
      (s : Session) (r : PracticeSessionInitResponse)
      (h : startInteractiveSession userId episodeId character sceneNumber
            sceneId sessionId sceneText now = .ok (s, r)) :
      Reachable s
  | step (env : Env) (s : Session) (userResponse : Str) (now : ℚ)
      (s' : Session) (r : PracticeContinueResponse)
      (hs : Reachable s)
      (h : continuePractice env s userResponse now = .ok (s', r)) :
      Reachable s'

/-- An environment whose embedding service is unavailable; used for
concrete instantiations (the scoring paths under test never reach it). -/
def envFail : Env :=
  { embedData := fun _ _ => .error "service unavailable".data, sqrtq := fun q => q }

/-- An environment whose embedding service returns the one-dimensional
unit vector for both texts; used for concrete instantiations. -/
def envUnit : Env :=
  { embedData := fun _ _ => .ok [[1], [1]], sqrtq := fun q => q }

/-- C2 counterexample: the claim fails at `s = "(hi)"` — dialogue
extraction (applied to the expected operand only) erases the whole
parenthesized text, so the user operand `"(hi)"` is compared against the
empty string and scores 0, not 1. -/
theorem score_self_counterexample :
    ¬ ((calculateSimilarity envFail "(hi)".data "(hi)".data).similarity = 1 ∧
       (calculateSimilarity envFail "(hi)".data "(hi)".data).isCorrect = true) := by
  with_unfolding_all decide

/-- C2 (amended): for every string `s` on which dialogue extraction does
not change the normalized form — in particular any string with no
parenthesized or bracketed span — `calculateSimilarity s s` takes the
exact-match branch and returns similarity 1.0 and `isCorrect = true`. -/
theorem score_self_perfect_of_extraction_invariant (env : Env) (s : Str)
    (h : cleanTextForComparison (extractDialogueOnly s) = cleanTextForComparison s) :
    (calculateSimilarity env s s).similarity = 1 ∧
    (calculateSimilarity env s s).isCorrect = true := by
  simp [calculateSimilarity, calculateSimilarityTry, catchScoring, h]

/-- Witness for the amended C2 at `s = "hello world!"`. -/
theorem score_self_perfect_witness :
    (calculateSimilarity envFail "hello world!".data "hello world!".data).similarity = 1 ∧
    (calculateSimilarity envFail "hello world!".data "hello world!".data).isCorrect = true :=
  score_self_perfect_of_extraction_invariant envFail "hello world!".data
    (by with_unfolding_all decide)

/-- C4: the scoring boundary never lets an exception escape — the
translated `try` body always returns a result (it is total), the exposed
`calculateSimilarity` is exactly that body guarded by the `catch` clause,
and the `catch` clause converts every exception into the zero-similarity,
`isCorrect = false`, error-feedback result. -/
theorem scoring_catch_boundary (env : Env) (u t : Str) (e : Str) :
    (∃ r, calculateSimilarityTry env u t = Except.ok r ∧ calculateSimilarity env u t = r) ∧
    catchScoring (Except.error e) = scoringFallback ∧
    scoringFallback.similarity = 0 ∧
    scoringFallback.isCorrect = false ∧
    scoringFallback.feedback = errorFeedback := by
  refine ⟨?_, rfl, rfl, rfl, rfl⟩
  obtain ⟨r, hr⟩ : ∃ r, calculateSimilarityTry env u t = Except.ok r := by
    simp only [calculateSimilarityTry]
    split
    · exact ⟨_, rfl⟩
    · split
      · exact ⟨_, rfl⟩
      · exact ⟨_, rfl⟩
  exact ⟨r, hr, by simp [calculateSimilarity, hr, catchScoring]⟩

/-- The near-match condition as the specification states it: the two
strings have the same length and differ in at most one character
position, or one equals the other with exactly one character removed
(equivalently, inserted) at some position. -/
def nearMatchSpec (a b : Str) : Prop :=
  (a.length = b.length ∧ countDiffs a b ≤ 1) ∨
  (∃ i, i < a.length ∧ a.eraseIdx i = b) ∨
  (∃ i, i < b.length ∧ b.eraseIdx i = a)

/-- The specification-side near-match condition implies the source's
`isVeryCloseMatch` check (for distinct strings). -/
theorem nearMatchSpec_implies_close (a b : Str) (h : nearMatchSpec a b) :
    isVeryCloseMatch a b = true := by
  unfold isVeryCloseMatch
  rcases h with ⟨hlen, hd⟩ | ⟨i, hi, he⟩ | ⟨i, hi, he⟩
  · rw [if_pos ⟨hlen, hd⟩]
  · have hlb : a.length = b.length + 1 := by
      have hl := List.length_eraseIdx_of_lt hi
      rw [he] at hl
      omega
    have h1 : ¬(a.length = b.length ∧ countDiffs a b ≤ 1) := by
      rintro ⟨hl, _⟩; omega
    have h2 : ¬ a.length < b.length := by omega
    rw [if_neg h1]
    simp only [if_neg h2]
    rw [if_pos (by omega : a.length - b.length = 1)]
    exact List.any_eq_true.mpr ⟨i, List.mem_range.mpr hi, decide_eq_true he⟩
  · have hlb : b.length = a.length + 1 := by
      have hl := List.length_eraseIdx_of_lt hi
      rw [he] at hl
      omega
    have h1 : ¬(a.length = b.length ∧ countDiffs a b ≤ 1) := by
      rintro ⟨hl, _⟩; omega
    have h2 : a.length < b.length := by omega
    rw [if_neg h1]
    simp only [if_pos h2]
    rw [if_pos (by omega : b.length - a.length = 1)]
    exact List.any_eq_true.mpr ⟨i, List.mem_range.mpr hi, decide_eq_true he⟩

/-- C6: when the normalized operands are distinct but satisfy the
near-match condition (same length with at most one differing position, or
one character inserted or removed), `calculateSimilarity` returns
similarity 0.95, `veryCloseMatch = true` and `isCorrect = true`. -/
theorem veryCloseMatch_scores (env : Env) (u t : Str)
    (hne : cleanTextForComparison u ≠ cleanTextForComparison (extractDialogueOnly t))
    (h : nearMatchSpec (cleanTextForComparison u)
          (cleanTextForComparison (extractDialogueOnly t))) :
    (calculateSimilarity env u t).similarity = 0.95 ∧
    (calculateSimilarity env u t).detailedAnalysis.veryCloseMatch = true ∧
    (calculateSimilarity env u t).isCorrect = true := by
  have hc := nearMatchSpec_implies_close _ _ h
  simp [calculateSimilarity, calculateSimilarityTry, catchScoring, hne, hc]

/-- Witness for C6 at the spec's own scenario: user `"Helo world"`
against expected `"Hello world"` (one dropped character). -/
theorem veryCloseMatch_scores_witness :
    (calculateSimilarity envFail "Helo world".data "Hello world".data).similarity = 0.95 ∧
    (calculateSimilarity envFail "Helo world".data "Hello world".data).detailedAnalysis.veryCloseMatch = true ∧
    (calculateSimilarity envFail "Helo world".data "Hello world".data).isCorrect = true :=
  veryCloseMatch_scores envFail "Helo world".data "Hello world".data
    (by with_unfolding_all decide)
    (Or.inr (Or.inr ⟨2, by with_unfolding_all decide, by with_unfolding_all decide⟩))

/-- The word-similarity score is never negative. -/
theorem calculateWordSimilarity_nonneg (t1 t2 : Str) :
    0 ≤ calculateWordSimilarity t1 t2 := by
  simp only [calculateWordSimilarity]
  split
  · norm_num
  · split
    · norm_num
    · refine le_min (by norm_num) (add_nonneg (div_nonneg ?_ ?_) ?_)
      · exact Nat.cast_nonneg _
      · exact Nat.cast_nonneg _
      · split <;> norm_num

/-- C5: the embedding tier's contract.
(1) When the gating condition — word similarity strictly below 0.4 and
cleaned expected text longer than 20 characters — fails, the result does
not depend on the environment, so the embedding service is not consulted.
(2) When the main scoring path reaches the tier with the gating condition
true, the final similarity is the maximum of the prior best (the word
similarity, the character tier being skipped for texts longer than 20)
and the embedding score, which on a successful service reply with nonzero
norms is the cosine similarity floored at 0.
(3) When the service fails there, the result is the word-similarity
result: its similarity is the word similarity and the correctness and
feedback are the word-similarity bands (no error is surfaced). -/
theorem embedding_tier_contract :
    (∀ (env₁ env₂ : Env) (u t : Str),
      ¬(calculateWordSimilarity (cleanTextForComparison u)
            (cleanTextForComparison (extractDialogueOnly t)) < (0.4 : ℚ) ∧
        20 < (cleanTextForComparison (extractDialogueOnly t)).length) →
      calculateSimilarity env₁ u t = calculateSimilarity env₂ u t) ∧
    (∀ (env : Env) (u t : Str),
      cleanTextForComparison u ≠ cleanTextForComparison (extractDialogueOnly t) →
      isVeryCloseMatch (cleanTextForComparison u)
        (cleanTextForComparison (extractDialogueOnly t)) = false →
      calculateWordSimilarity (cleanTextForComparison u)
        (cleanTextForComparison (extractDialogueOnly t)) < (0.4 : ℚ) →
      20 < (cleanTextForComparison (extractDialogueOnly t)).length →
      (calculateSimilarity env u t).similarity =
        max (calculateWordSimilarity (cleanTextForComparison u)
              (cleanTextForComparison (extractDialogueOnly t)))
          (calculateEmbeddingSimilarity env (cleanTextForComparison u)
            (cleanTextForComparison (extractDialogueOnly t))) ∧
      (∀ data e1 e2,
        env.embedData (cleanTextForComparison u)
            (cleanTextForComparison (extractDialogueOnly t)) = .ok data →
        data[0]? = some e1 → data[1]? = some e2 →
        normQ env e1 ≠ 0 → normQ env e2 ≠ 0 →
        calculateEmbeddingSimilarity env (cleanTextForComparison u)
            (cleanTextForComparison (extractDialogueOnly t)) =
          max 0 (dotQ e1 e2 / (normQ env e1 * normQ env e2)))) ∧
    (∀ (env : Env) (u t : Str) (err : Str),
      cleanTextForComparison u ≠ cleanTextForComparison (extractDialogueOnly t) →
      isVeryCloseMatch (cleanTextForComparison u)
        (cleanTextForComparison (extractDialogueOnly t)) = false →
      calculateWordSimilarity (cleanTextForComparison u)
        (cleanTextForComparison (extractDialogueOnly t)) < (0.4 : ℚ) →
      20 < (cleanTextForComparison (extractDialogueOnly t)).length →
      env.embedData (cleanTextForComparison u)
          (cleanTextForComparison (extractDialogueOnly t)) = .error err →
      (calculateSimilarity env u t).similarity =
        calculateWordSimilarity (cleanTextForComparison u)
          (cleanTextForComparison (extractDialogueOnly t)) ∧
      (calculateSimilarity env u t).isCorrect = false ∧
      (calculateSimilarity env u t).feedback = tryAgainFeedback (extractDialogueOnly t) ∧
      (calculateSimilarity env u t).detailedAnalysis.wordSimilarity =
        calculateWordSimilarity (cleanTextForComparison u)
          (cleanTextForComparison (extractDialogueOnly t))) := by
  refine ⟨?_, ?_, ?_⟩
  · intro env₁ env₂ u t hg
    by_cases h1 : cleanTextForComparison u = cleanTextForComparison (extractDialogueOnly t)
    · simp [calculateSimilarity, calculateSimilarityTry, catchScoring, h1]
    · by_cases h2 : isVeryCloseMatch (cleanTextForComparison u)
          (cleanTextForComparison (extractDialogueOnly t))
      · simp [calculateSimilarity, calculateSimilarityTry, catchScoring, h1, h2]
      · simp [calculateSimilarity, calculateSimilarityTry, catchScoring, h1, h2, hg]
  · intro env u t h1 h2 hw hl
    have hl' : ¬ (cleanTextForComparison (extractDialogueOnly t)).length ≤ 20 := by omega
    constructor
    · simp [calculateSimilarity, calculateSimilarityTry, catchScoring, h1, h2, hw, hl, hl']
    · intro data e1 e2 hdata he1 he2 hn1 hn2
      simp [calculateEmbeddingSimilarity, hdata, he1, he2, hn1, hn2]
  · intro env u t err h1 h2 hw hl herr
    have hl' : ¬ (cleanTextForComparison (extractDialogueOnly t)).length ≤ 20 := by omega
    have hemb : calculateEmbeddingSimilarity env (cleanTextForComparison u)
        (cleanTextForComparison (extractDialogueOnly t)) = 0 := by
      simp [calculateEmbeddingSimilarity, herr]
    have hmax : max (calculateWordSimilarity (cleanTextForComparison u)
        (cleanTextForComparison (extractDialogueOnly t))) (0 : ℚ) =
        calculateWordSimilarity (cleanTextForComparison u)
          (cleanTextForComparison (extractDialogueOnly t)) :=
      max_eq_left (calculateWordSimilarity_nonneg _ _)
    have hcor : ¬ ((0.6 : ℚ) ≤ calculateWordSimilarity (cleanTextForComparison u)
        (cleanTextForComparison (extractDialogueOnly t))) := by
      intro hc
      have : (0.6 : ℚ) < (0.4 : ℚ) := lt_of_le_of_lt hc hw
      norm_num at this
    have hf8 : ¬ ((0.8 : ℚ) ≤ calculateWordSimilarity (cleanTextForComparison u)
        (cleanTextForComparison (extractDialogueOnly t))) := by
      intro hc
      have : (0.8 : ℚ) < (0.4 : ℚ) := lt_of_le_of_lt hc hw
      norm_num at this
    have hf4 : ¬ ((0.4 : ℚ) ≤ calculateWordSimilarity (cleanTextForComparison u)
        (cleanTextForComparison (extractDialogueOnly t))) := not_le_of_lt hw
    simp [calculateSimilarity, calculateSimilarityTry, catchScoring, h1, h2, hw, hl, hl',
      hemb, hmax, hcor, hf8, hf4]

/-- Witness for C5: part (1) at `"hi"`/`"hi"` (gate false — the two
environments disagree on the service yet the results agree), parts (2) and
(3) at user `"zz"` against a 23-character expected text with no shared
words (gate true), under a working and a failing service respectively. -/
theorem embedding_tier_contract_witness :
    calculateSimilarity envFail "hi".data "hi".data =
      calculateSimilarity envUnit "hi".data "hi".data ∧
    (calculateSimilarity envUnit "zz".data "abcdefgh ijklmnop qrstu".data).similarity =
      max (calculateWordSimilarity (cleanTextForComparison "zz".data)
            (cleanTextForComparison (extractDialogueOnly "abcdefgh ijklmnop qrstu".data)))
        (calculateEmbeddingSimilarity envUnit (cleanTextForComparison "zz".data)
          (cleanTextForComparison (extractDialogueOnly "abcdefgh ijklmnop qrstu".data))) ∧
    calculateEmbeddingSimilarity envUnit (cleanTextForComparison "zz".data)
        (cleanTextForComparison (extractDialogueOnly "abcdefgh ijklmnop qrstu".data)) =
      max 0 (dotQ [1] [1] / (normQ envUnit [1] * normQ envUnit [1])) ∧
    (calculateSimilarity envFail "zz".data "abcdefgh ijklmnop qrstu".data).similarity =
      calculateWordSimilarity (cleanTextForComparison "zz".data)
        (cleanTextForComparison (extractDialogueOnly "abcdefgh ijklmnop qrstu".data)) ∧
    (calculateSimilarity envFail "zz".data "abcdefgh ijklmnop qrstu".data).isCorrect = false := by
  obtain ⟨pA, pB, pC⟩ := embedding_tier_contract
  have hne : cleanTextForComparison "zz".data ≠
      cleanTextForComparison (extractDialogueOnly "abcdefgh ijklmnop qrstu".data) := by
    with_unfolding_all decide
  have hcl : isVeryCloseMatch (cleanTextForComparison "zz".data)
      (cleanTextForComparison (extractDialogueOnly "abcdefgh ijklmnop qrstu".data)) = false := by
    with_unfolding_all decide
  have hw : calculateWordSimilarity (cleanTextForComparison "zz".data)
      (cleanTextForComparison (extractDialogueOnly "abcdefgh ijklmnop qrstu".data)) < (0.4 : ℚ) := by
    with_unfolding_all decide
  have hlen : 20 <
      (cleanTextForComparison (extractDialogueOnly "abcdefgh ijklmnop qrstu".data)).length := by
    with_unfolding_all decide
  have hB := pB envUnit "zz".data "abcdefgh ijklmnop qrstu".data hne hcl hw hlen
  have hC := pC envFail "zz".data "abcdefgh ijklmnop qrstu".data
    "service unavailable".data hne hcl hw hlen rfl
  exact ⟨pA envFail envUnit "hi".data "hi".data (by with_unfolding_all decide),
    hB.1,
    hB.2 [[1], [1]] [1] [1] rfl rfl rfl (by with_unfolding_all decide)
      (by with_unfolding_all decide),
    hC.1, hC.2.1⟩

/-- Map a function over a list together with consecutive indices starting
at `k`. -/
def mapIdxFrom (f : Nat → α → β) : Nat → List α → List β
  | _, [] => []
  | k, a :: as => f k a :: mapIdxFrom f (k + 1) as

/-- The lines of a scene text that survive the parser's filtering: each
raw line trimmed, whitespace-only lines dropped. -/
def survivingLines (sceneText : Str) : List Str :=
  ((jsSplit '\n' sceneText).map jsTrim).filter (fun t => !t.isEmpty)

/-- Length of an indexed map. -/
theorem mapIdxFrom_length (f : Nat → α → β) (k : Nat) (l : List α) :
    (mapIdxFrom f k l).length = l.length := by
  induction l generalizing k with
  | nil => rfl
  | cons a as ih => simp [mapIdxFrom, ih]

/-- Element lookup in an indexed map. -/
theorem mapIdxFrom_getElem? (f : Nat → α → β) (k : Nat) (l : List α) (i : Nat) :
    (mapIdxFrom f k l)[i]? = (l[i]?).map (f (k + i)) := by
  induction l generalizing k i with
  | nil => simp [mapIdxFrom]
  | cons a as ih =>
    cases i with
    | zero => simp [mapIdxFrom]
    | succ n =>
      simp only [mapIdxFrom, List.getElem?_cons_succ, ih]
      have hk : k + 1 + n = k + (n + 1) := by omega
      rw [hk]

/-- Every classification carries the ordinal it was given. -/
theorem classifyLine_line_number (k : Nat) (t : Str) :
    (classifyLine k t).line_number = k := by
  simp only [classifyLine]
  split
  · rfl
  · split <;> rfl

/-- The parser's numbering loop is the indexed map of the classifier over
the surviving lines. -/
theorem parseGo_eq (k : Nat) (ls : List Str) :
    parseGo k ls = mapIdxFrom classifyLine k ((ls.map jsTrim).filter (fun t => !t.isEmpty)) := by
  induction ls generalizing k with
  | nil => rfl
  | cons l rest ih =>
    by_cases h : jsTrim l = []
    · simp [parseGo, h, ih, List.isEmpty_iff]
    · simp [parseGo, h, ih, List.isEmpty_iff, mapIdxFrom]

/-- C7: `parseSceneDialogue` is exactly the per-line classification of the
surviving (non-empty trimmed) lines — whitespace-only lines are dropped,
the output has one entry per surviving line, ordinals are contiguous from
1, and each surviving line is classified independently by the
bracket/colon/narration rules of `classifyLine`. -/
theorem parseSceneDialogue_spec (sceneText : Str) :
    parseSceneDialogue sceneText = mapIdxFrom classifyLine 1 (survivingLines sceneText) ∧
    (parseSceneDialogue sceneText).length = (survivingLines sceneText).length ∧
    (∀ i l, (parseSceneDialogue sceneText)[i]? = some l → l.line_number = i + 1) := by
  have h : parseSceneDialogue sceneText =
      mapIdxFrom classifyLine 1 (survivingLines sceneText) :=
    parseGo_eq 1 (jsSplit '\n' sceneText)
  refine ⟨h, by rw [h, mapIdxFrom_length], ?_⟩
  intro i l hl
  rw [h, mapIdxFrom_getElem?] at hl
  cases hm : (survivingLines sceneText)[i]? with
  | none => rw [hm] at hl; simp at hl
  | some t =>
    rw [hm] at hl
    simp only [Option.map_some'] at hl
    cases hl
    rw [classifyLine_line_number, Nat.add_comm]

/-- Witness for C7 at a three-line scene with one whitespace-only line. -/
theorem parseSceneDialogue_spec_witness :
    parseSceneDialogue "Ross: hi\n  \n[door]".data =
      mapIdxFrom classifyLine 1 (survivingLines "Ross: hi\n  \n[door]".data) ∧
    (parseSceneDialogue "Ross: hi\n  \n[door]".data).length =
      (survivingLines "Ross: hi\n  \n[door]".data).length ∧
    (classifyLine 1 (jsTrim "Ross: hi".data)).line_number = 0 + 1 := by
  have h := parseSceneDialogue_spec "Ross: hi\n  \n[door]".data
  exact ⟨h.1, h.2.1, h.2.2 0 _ (by with_unfolding_all rfl)⟩

/-- C10: the square-bracket rule wins over the colon rule — a surviving
line wrapped in square brackets that also contains a colon is parsed as an
action with no speaker, never as dialogue. -/
theorem bracket_precedence (sceneText : Str) (i : Nat) (t : Str)
    (ht : (survivingLines sceneText)[i]? = some t)
    (h1 : t.head? = some '[') (h2 : t.getLast? = some ']') (h3 : ':' ∈ t) :
    (parseSceneDialogue sceneText)[i]? =
      some { line_number := i + 1, type := .action, speaker := none,
             text := t, is_user_line := false } := by
  have hp : parseSceneDialogue sceneText =
      mapIdxFrom classifyLine 1 (survivingLines sceneText) :=
    parseGo_eq 1 (jsSplit '\n' sceneText)
  rw [hp, mapIdxFrom_getElem?, ht]
  simp only [Option.map_some']
  rw [classifyLine, if_pos ⟨h1, h2⟩, Nat.add_comm]

/-- Witness for C10 at the stage direction `"[Time: 3pm]"`. -/
theorem bracket_precedence_witness :
    (parseSceneDialogue "[Time: 3pm]".data)[0]? =
      some { line_number := 0 + 1, type := .action, speaker := none,
             text := "[Time: 3pm]".data, is_user_line := false } :=
  bracket_precedence "[Time: 3pm]".data 0 "[Time: 3pm]".data
    (by with_unfolding_all rfl) (by with_unfolding_all rfl)
    (by with_unfolding_all rfl) (by with_unfolding_all decide)

/-- The last `n` elements of a list. -/
def takeLast (n : Nat) (l : List α) : List α :=
  l.drop (l.length - n)

/-- The claim-side context function, as the specification words it: the
up-to-`windowSize` most recent lines of kind dialogue or action strictly
before the target ordinal, formatted and joined by newlines. -/
def claimContextBefore (lines : List DialogueLine) (target : Nat) (windowSize : Nat) : Str :=
  joinLines ((takeLast windowSize (lines.filter
      (fun l => decide (l.line_number < target) &&
        (l.type == LineType.dialogue || l.type == LineType.action)))).map formatContextLine)

/-- C3 counterexample: on a parsed scene whose two lines immediately
before the target are narration, `getContextBefore` returns the empty
string although two qualifying dialogue lines exist strictly before the
target — the code slices the last two lines of any kind and only then
filters, unlike the claim's description. -/
theorem getContextBefore_counterexample :
    getContextBefore (parseSceneDialogue "A: one\nB: two\nnarr x\nnarr y\nRoss: five".data) 5 2 ≠
    claimContextBefore
      (parseSceneDialogue "A: one\nB: two\nnarr x\nnarr y\nRoss: five".data) 5 2 := by
  with_unfolding_all decide

/-- A found index is within the list. -/
theorem findIdxFrom?_lt_length (p : α → Bool) (l : List α) (i : Nat)
    (h : findIdxFrom? p l = some i) : i < l.length := by
  induction l generalizing i with
  | nil => simp [findIdxFrom?] at h
  | cons a as ih =>
    simp only [findIdxFrom?] at h
    split at h
    · cases h
      simp
    · cases hm : findIdxFrom? p as with
      | none => rw [hm] at h; simp at h
      | some j =>
        rw [hm] at h
        simp only [Option.map_some'] at h
        cases h
        have := ih j hm
        simp only [List.length_cons]
        omega

/-- C3 (amended): `getContextBefore` with window size 2 examines only the
two list positions immediately before the target line's position and
returns those of their lines that are of kind dialogue or action,
formatted (`speaker: text` for dialogue with a non-empty speaker, bare
text otherwise) and joined by newlines; qualifying lines earlier than
that two-line window are not returned, so the result can hold fewer than
two lines — possibly none — even when more qualifying lines precede the
target. -/
theorem getContextBefore_window (lines : List DialogueLine) (target : Nat) (i : Nat)
    (h : findIdxFrom? (fun l => l.line_number = target) lines = some i) :
    getContextBefore lines target 2 =
      joinLines (((takeLast 2 (lines.take i)).filter
        (fun l => l.type = .dialogue ∨ l.type = .action)).map formatContextLine) := by
  have hi : i < lines.length := findIdxFrom?_lt_length _ _ _ h
  have hs : jsSlice lines (max 0 ((i : ℤ) - ((2 : ℕ) : ℤ))) (i : ℤ) =
      takeLast 2 (lines.take i) := by
    simp only [jsSlice, takeLast]
    rw [if_neg (by omega : ¬ (max 0 ((i : ℤ) - ((2 : ℕ) : ℤ)) < 0)),
        if_neg (by omega : ¬ ((i : ℤ) < 0))]
    have e1 : (min (i : ℤ) (lines.length : ℤ)).toNat = i := by omega
    have e2 : (min (max 0 ((i : ℤ) - ((2 : ℕ) : ℤ))) (lines.length : ℤ)).toNat = i - 2 := by
      omega
    have e3 : (lines.take i).length - 2 = i - 2 := by
      rw [List.length_take]
      omega
    rw [e1, e2, e3]
  simp only [getContextBefore, h]
  rw [hs]

/-- Witness for the amended C3 at the counterexample scene (target line
5, list position 4). -/
theorem getContextBefore_window_witness :
    getContextBefore (parseSceneDialogue "A: one\nB: two\nnarr x\nnarr y\nRoss: five".data) 5 2 =
      joinLines (((takeLast 2
          ((parseSceneDialogue "A: one\nB: two\nnarr x\nnarr y\nRoss: five".data).take 4)).filter
        (fun l => l.type = .dialogue ∨ l.type = .action)).map formatContextLine) :=
  getContextBefore_window
    (parseSceneDialogue "A: one\nB: two\nnarr x\nnarr y\nRoss: five".data) 5 4
    (by with_unfolding_all rfl)

/-- C8: `completeSession` rejects every session whose status is not
`completed` with the `SessionNotYetCompleted` error, and on a completed
session (whose completion timestamp is present, as completion always sets
it) returns — without touching the session — the accuracy
`correct / attempts * 100` (0 when there are no attempts) rounded to one
decimal, the final score `round(accuracy)`, and the duration
`completed_at - started_at` in minutes rounded to one decimal. -/
theorem completeSession_spec (s : Session) :
    (s.status ≠ .completed → completeSession s = .error .sessionNotYetCompleted) ∧
    (∀ c, s.status = .completed → s.completed_at = some c →
      completeSession s = .ok
        { session_id := s.session_id
          final_score := jsRound (if 0 < s.total_attempts then
              ((s.correct_answers : ℚ) / (s.total_attempts : ℚ)) * 100 else 0)
          accuracy := (jsRound ((if 0 < s.total_attempts then
              ((s.correct_answers : ℚ) / (s.total_attempts : ℚ)) * 100 else 0) * 10) : ℚ) / 10
          total_lines_practiced := s.total_attempts
          correct_answers := s.correct_answers
          session_duration_minutes :=
            (jsRound ((c - s.started_at) / (1000 * 60) * 10) : ℚ) / 10
          completed_at := c }) := by
  constructor
  · intro hne
    simp [completeSession, hne]
  · intro c hc hca
    simp [completeSession, hc, hca]

/-- A concrete completed session: three attempts, two correct, completed
90000 ms (1.5 minutes) after starting. -/
def sessionDone : Session :=
  { session_id := "s1".data
    user_id := "u".data
    episode_id := "e1".data
    character := "Ross".data
    scene_number := 1
    scene_id := "sc".data
    current_line_index := 3
    total_lines := 3
    dialogue_lines := parseSceneDialogue "Ross: hi\nRachel: hey\nRoss: bye\nRoss: ok".data
    correct_answers := 2
    total_attempts := 3
    session_progress := []
    status := .completed
    started_at := 0
    completed_at := some 90000
    created_at := 0
    updated_at := 90000 }

set_option maxRecDepth 4000 in
/-- Witness for C8 at `sessionDone`, together with the evaluated metrics:
accuracy 66.7, final score 67, duration 1.5 minutes. -/
theorem completeSession_spec_witness :
    completeSession sessionDone = .ok
      { session_id := sessionDone.session_id
        final_score := jsRound (if 0 < sessionDone.total_attempts then
            ((sessionDone.correct_answers : ℚ) / (sessionDone.total_attempts : ℚ)) * 100 else 0)
        accuracy := (jsRound ((if 0 < sessionDone.total_attempts then
            ((sessionDone.correct_answers : ℚ) / (sessionDone.total_attempts : ℚ)) * 100
          else 0) * 10) : ℚ) / 10
        total_lines_practiced := sessionDone.total_attempts
        correct_answers := sessionDone.correct_answers
        session_duration_minutes :=
          (jsRound (((90000 : ℚ) - sessionDone.started_at) / (1000 * 60) * 10) : ℚ) / 10
        completed_at := 90000 } ∧
    (completeSession sessionDone).toOption.map (fun r => r.accuracy) = some (667 / 10) ∧
    (completeSession sessionDone).toOption.map (fun r => r.final_score) = some 67 ∧
    (completeSession sessionDone).toOption.map (fun r => r.session_duration_minutes) =
      some (3 / 2) :=
  ⟨(completeSession_spec sessionDone).2 90000 rfl rfl,
    by with_unfolding_all decide, by with_unfolding_all decide, by with_unfolding_all decide⟩

/-- The successor session state of one successful `continuePractice` step
(the mutations of lines 238-264, factored out for reasoning): append the
attempt, bump the counters, advance the cursor, complete when the cursor
reaches the end of the turn list. -/
def advanceSession (env : Env) (session : Session) (userResponse : Str) (now : ℚ)
    (currentUserLine : DialogueLine) : Session :=
  let evaluation := calculateSimilarity env userResponse currentUserLine.text
  let progress : PracticeProgress :=
    { line_number := currentUserLine.line_number
      expected_text := currentUserLine.text
      user_response := userResponse
      similarity_score := evaluation.similarity
      is_correct := evaluation.isCorrect
      feedback := evaluation.feedback
      attempt_number := session.total_attempts + 1
      timestamp := now }
  let s1 : Session :=
    { session with
      session_progress := session.session_progress ++ [progress]
      total_attempts := session.total_attempts + 1
      correct_answers :=
        if evaluation.isCorrect then session.correct_answers + 1
        else session.correct_answers
      current_line_index := session.current_line_index + 1
      updated_at := now }
  if (filterUserLines session.dialogue_lines session.character).length ≤
      s1.current_line_index then
    { s1 with status := .completed, completed_at := some now }
  else s1

/-- The response payload of one successful `continuePractice` step (lines
266-302, factored out for reasoning). -/
def continueResponse (env : Env) (session : Session) (userResponse : Str) (now : ℚ)
    (currentUserLine : DialogueLine) : PracticeContinueResponse :=
  let evaluation := calculateSimilarity env userResponse currentUserLine.text
  let userLines := filterUserLines session.dialogue_lines session.character
  let s2 := advanceSession env session userResponse now currentUserLine
  let isComplete := userLines.length ≤ session.current_line_index + 1
  let nextTurn : Option (Str × UserTurn) :=
    if isComplete then none
    else
      match userLines[session.current_line_index + 1]? with
      | none => none
      | some nextUserLine =>
          some (getContextBefore s2.dialogue_lines nextUserLine.line_number 2,
            { expected := nextUserLine.text
              speaker := s2.character
              line_number := nextUserLine.line_number })
  let accuracy : ℚ :=
    if 0 < s2.total_attempts then
      ((s2.correct_answers : ℚ) / (s2.total_attempts : ℚ)) * 100
    else 0
  { evaluation := evaluation
    next_context := nextTurn.map (·.1)
    next_user_turn := nextTurn.map (·.2)
    session_status :=
      { current_line := s2.current_line_index + 1
        total_lines := userLines.length
        correct_answers := s2.correct_answers
        accuracy := (jsRound (accuracy * 10) : ℚ) / 10 }
    is_session_complete := isComplete }

/-- A successful `continuePractice` call computes exactly the factored
successor state and response. -/
theorem continuePractice_eq (env : Env) (s : Session) (resp : Str) (now : ℚ)
    (hact : s.status = .active) (turn : DialogueLine)
    (hturn : (filterUserLines s.dialogue_lines s.character)[s.current_line_index]? =
      some turn) :
    continuePractice env s resp now =
      .ok (advanceSession env s resp now turn, continueResponse env s resp now turn) := by
  simp only [continuePractice]
  rw [if_neg (show ¬ s.status ≠ SessionStatus.active from by simp [hact])]
  rw [hturn]
  rfl

/-- C1: on an active session whose cursor is below its total and whose
total matches its turn list (as every session built by this core
satisfies), a `continuePractice` call succeeds and in one step appends
exactly one attempt record, increments `total_attempts` by one,
increments `correct_answers` by one exactly when the scored response was
correct, advances `current_line_index` by one regardless of correctness,
and sets status `completed` with a completion timestamp exactly when the
new cursor equals `total_lines`. -/
theorem continuePractice_advances (env : Env) (s : Session) (resp : Str) (now : ℚ)
    (hact : s.status = .active)
    (hcur : s.current_line_index < s.total_lines)
    (hwf : s.total_lines = (filterUserLines s.dialogue_lines s.character).length) :
    ∃ turn s' out,
      (filterUserLines s.dialogue_lines s.character)[s.current_line_index]? = some turn ∧
      continuePractice env s resp now = .ok (s', out) ∧
      s'.session_progress = s.session_progress ++
        [{ line_number := turn.line_number
           expected_text := turn.text
           user_response := resp
           similarity_score := (calculateSimilarity env resp turn.text).similarity
           is_correct := (calculateSimilarity env resp turn.text).isCorrect
           feedback := (calculateSimilarity env resp turn.text).feedback
           attempt_number := s.total_attempts + 1
           timestamp := now }] ∧
      s'.total_attempts = s.total_attempts + 1 ∧
      s'.correct_answers = s.correct_answers +
        (if (calculateSimilarity env resp turn.text).isCorrect then 1 else 0) ∧
      s'.current_line_index = s.current_line_index + 1 ∧
      ((s'.status = .completed ∧ s'.completed_at = some now) ↔
        s'.current_line_index = s.total_lines) := by
  have hlt : s.current_line_index < (filterUserLines s.dialogue_lines s.character).length := by
    omega
  have hturn : (filterUserLines s.dialogue_lines s.character)[s.current_line_index]? =
      some ((filterUserLines s.dialogue_lines s.character)[s.current_line_index]) :=
    List.getElem?_eq_getElem hlt
  refine ⟨(filterUserLines s.dialogue_lines s.character)[s.current_line_index],
    advanceSession env s resp now _, continueResponse env s resp now _,
    hturn, continuePractice_eq env s resp now hact _ hturn, ?_, ?_, ?_, ?_, ?_⟩
  · simp only [advanceSession]
    split <;> rfl
  · simp only [advanceSession]
    split <;> rfl
  · simp only [advanceSession]
    split <;>
      (cases hic : (calculateSimilarity env resp
          (filterUserLines s.dialogue_lines s.character)[s.current_line_index].text).isCorrect <;>
        simp [hic])
  · simp only [advanceSession]
    split <;> rfl
  · by_cases hcomp : (filterUserLines s.dialogue_lines s.character).length ≤
        s.current_line_index + 1
    · have h1 : (advanceSession env s resp now
          (filterUserLines s.dialogue_lines s.character)[s.current_line_index]).status =
            SessionStatus.completed ∧
          (advanceSession env s resp now
            (filterUserLines s.dialogue_lines s.character)[s.current_line_index]).completed_at =
            some now := by
        simp [advanceSession, hcomp]
      have h2 : (advanceSession env s resp now
          (filterUserLines s.dialogue_lines s.character)[s.current_line_index]).current_line_index =
          s.current_line_index + 1 := by
        simp [advanceSession, hcomp]
      exact iff_of_true h1 (by rw [h2]; omega)
    · have h1 : (advanceSession env s resp now
          (filterUserLines s.dialogue_lines s.character)[s.current_line_index]).status =
          s.status := by
        simp [advanceSession, hcomp]
      have h2 : (advanceSession env s resp now
          (filterUserLines s.dialogue_lines s.character)[s.current_line_index]).current_line_index =
          s.current_line_index + 1 := by
        simp [advanceSession, hcomp]
      refine iff_of_false ?_ ?_
      · rintro ⟨hst, _⟩
        rw [h1, hact] at hst
        simp at hst
      · intro hco
        rw [h2] at hco
        omega

/-- The fresh session built by `startInteractiveSession` on the two-line
scene `"Rachel: hey\nRoss: hi"` for character Ross (one user turn). -/
def sessionStart : Session :=
  { session_id := "sid".data
    user_id := "u".data
    episode_id := "e1".data
    character := "Ross".data
    scene_number := 1
    scene_id := "sc".data
    current_line_index := 0
    total_lines := 1
    dialogue_lines := parseSceneDialogue "Rachel: hey\nRoss: hi".data
    correct_answers := 0
    total_attempts := 0
    session_progress := []
    status := .active
    started_at := 0
    completed_at := none
    created_at := 0
    updated_at := 0 }

/-- The single user turn of `sessionStart`. -/
def turnStart : DialogueLine :=
  { line_number := 2
    type := .dialogue
    speaker := some "Ross".data
    text := "hi".data
    is_user_line := true }

set_option maxRecDepth 8000 in
/-- Witness for C1: one `continuePractice` step on `sessionStart` (a
correct answer on the last turn, so the step completes the session). -/
theorem continuePractice_advances_witness :
    ∃ turn s' out,
      (filterUserLines sessionStart.dialogue_lines
        sessionStart.character)[sessionStart.current_line_index]? = some turn ∧
      continuePractice envFail sessionStart "hi".data 5 = .ok (s', out) ∧
      s'.session_progress = sessionStart.session_progress ++
        [{ line_number := turn.line_number
           expected_text := turn.text
           user_response := "hi".data
           similarity_score := (calculateSimilarity envFail "hi".data turn.text).similarity
           is_correct := (calculateSimilarity envFail "hi".data turn.text).isCorrect
           feedback := (calculateSimilarity envFail "hi".data turn.text).feedback
           attempt_number := sessionStart.total_attempts + 1
           timestamp := 5 }] ∧
      s'.total_attempts = sessionStart.total_attempts + 1 ∧
      s'.correct_answers = sessionStart.correct_answers +
        (if (calculateSimilarity envFail "hi".data turn.text).isCorrect then 1 else 0) ∧
      s'.current_line_index = sessionStart.current_line_index + 1 ∧
      ((s'.status = .completed ∧ s'.completed_at = some 5) ↔
        s'.current_line_index = sessionStart.total_lines) :=
  continuePractice_advances envFail sessionStart "hi".data 5 rfl
    (by with_unfolding_all decide) (by with_unfolding_all decide)

/-- Projections of the successor state that do not depend on whether the
step completes the session. -/
theorem advanceSession_proj (env : Env) (s : Session) (resp : Str) (now : ℚ)
    (turn : DialogueLine) :
    (advanceSession env s resp now turn).total_attempts = s.total_attempts + 1 ∧
    (advanceSession env s resp now turn).current_line_index = s.current_line_index + 1 ∧
    (advanceSession env s resp now turn).dialogue_lines = s.dialogue_lines ∧
    (advanceSession env s resp now turn).character = s.character ∧
    (advanceSession env s resp now turn).total_lines = s.total_lines ∧
    (advanceSession env s resp now turn).session_progress = s.session_progress ++
      [{ line_number := turn.line_number
         expected_text := turn.text
         user_response := resp
         similarity_score := (calculateSimilarity env resp turn.text).similarity
         is_correct := (calculateSimilarity env resp turn.text).isCorrect
         feedback := (calculateSimilarity env resp turn.text).feedback
         attempt_number := s.total_attempts + 1
         timestamp := now }] := by
  simp only [advanceSession]
  split <;> exact ⟨rfl, rfl, rfl, rfl, rfl, rfl⟩

/-- When the cursor is already past the turn list, `continuePractice` on
an active session fails with the `NoMoreTurns` error. -/
theorem continuePractice_eq_error (env : Env) (s : Session) (resp : Str) (now : ℚ)
    (hact : s.status = .active)
    (hturn : (filterUserLines s.dialogue_lines s.character)[s.current_line_index]? = none) :
    continuePractice env s resp now = .error .noMoreLines := by
  simp only [continuePractice]
  rw [if_neg (show ¬ s.status ≠ SessionStatus.active from by simp [hact])]
  rw [hturn]

/-- A successful `continuePractice` call certifies that the session was
active, that a current turn existed, and that the successor state is the
factored one. -/
theorem continuePractice_ok_inversion (env : Env) (s : Session) (resp : Str) (now : ℚ)
    (s' : Session) (out : PracticeContinueResponse)
    (h : continuePractice env s resp now = .ok (s', out)) :
    s.status = .active ∧
    ∃ turn,
      (filterUserLines s.dialogue_lines s.character)[s.current_line_index]? = some turn ∧
      s' = advanceSession env s resp now turn := by
  have hact : s.status = .active := by
    by_contra hne
    simp [continuePractice, hne] at h
  refine ⟨hact, ?_⟩
  cases hturn : (filterUserLines s.dialogue_lines s.character)[s.current_line_index]? with
  | none =>
    rw [continuePractice_eq_error env s resp now hact hturn] at h
    cases h
  | some turn =>
    rw [continuePractice_eq env s resp now hact turn hturn] at h
    injection h with hpair
    injection hpair with h1 h2
    exact ⟨turn, rfl, h1.symm⟩

/-- The structural invariant of every session reachable through the pure
core, proved by induction over `Reachable`. -/
theorem reachable_invariant (s : Session) (h : Reachable s) :
    s.total_attempts = s.current_line_index ∧
    s.session_progress.length = s.total_attempts ∧
    s.total_lines = (filterUserLines s.dialogue_lines s.character).length ∧
    1 ≤ s.total_lines ∧
    (s.status = .active ∨ s.status = .completed) ∧
    (s.status = .active → s.current_line_index < s.total_lines) ∧
    (s.status = .completed → s.current_line_index = s.total_lines) ∧
    (∀ k p, s.session_progress[k]? = some p →
      p.attempt_number = k + 1 ∧
      ∃ turn, (filterUserLines s.dialogue_lines s.character)[k]? = some turn ∧
        p.expected_text = turn.text) := by
  induction h with
  | start userId episodeId character sceneNumber sceneId sessionId sceneText now s r h =>
    simp only [startInteractiveSession] at h
    cases hu : filterUserLines (parseSceneDialogue sceneText) character with
    | nil =>
      rw [hu] at h
      cases h
    | cons f rest =>
      rw [hu] at h
      injection h with hpair
      injection hpair with h1 h2
      subst h1
      refine ⟨rfl, rfl, ?_, ?_, Or.inl rfl, fun _ => ?_, fun hc => ?_, fun k p hp => ?_⟩
      · show (f :: rest).length = (filterUserLines (parseSceneDialogue sceneText) character).length
        rw [hu]
      · show 1 ≤ (f :: rest).length
        simp
      · show 0 < (f :: rest).length
        simp
      · simp at hc
      · simp at hp
  | step env s resp now s' r hs hcont ih =>
    obtain ⟨hact, turn, hturn, hs'⟩ := continuePractice_ok_inversion env s resp now s' r hcont
    obtain ⟨ha1, ha2, ha3, ha4, ha5, ha6⟩ := advanceSession_proj env s resp now turn
    obtain ⟨i1, i2, i3, i4, i5, i6, i7, i8⟩ := ih
    have hidx : s.current_line_index < s.total_lines := i6 hact
    subst hs'
    have hperK : ∀ k p, (advanceSession env s resp now turn).session_progress[k]? = some p →
        p.attempt_number = k + 1 ∧
        ∃ t, (filterUserLines (advanceSession env s resp now turn).dialogue_lines
            (advanceSession env s resp now turn).character)[k]? = some t ∧
          p.expected_text = t.text := by
      intro k p hp
      rw [ha6] at hp
      rw [ha3, ha4]
      by_cases hk : k < s.session_progress.length
      · rw [List.getElem?_append_left hk] at hp
        exact i8 k p hp
      · have hk' : k = s.session_progress.length := by
          by_contra hkk
          rw [List.getElem?_append_right (by omega)] at hp
          cases hq : k - s.session_progress.length with
          | zero => omega
          | succ m => rw [hq] at hp; simp at hp
        subst hk'
        rw [List.getElem?_concat_length] at hp
        injection hp with hp
        subst hp
        refine ⟨?_, turn, ?_, rfl⟩
        · show s.total_attempts + 1 = s.session_progress.length + 1
          omega
        · rw [i2, i1]
          exact hturn
    by_cases hcomp : (filterUserLines s.dialogue_lines s.character).length ≤
        s.current_line_index + 1
    · have hst : (advanceSession env s resp now turn).status = SessionStatus.completed := by
        simp [advanceSession, hcomp]
      refine ⟨by omega, ?_, by rw [ha5, ha3, ha4]; exact i3, by omega, Or.inr hst,
        fun hc => ?_, fun _ => by omega, hperK⟩
      · rw [ha6, ha1]
        simp only [List.length_append, List.length_cons, List.length_nil]
        omega
      · rw [hst] at hc
        cases hc
    · have hst : (advanceSession env s resp now turn).status = s.status := by
        simp [advanceSession, hcomp]
      refine ⟨by omega, ?_, by rw [ha5, ha3, ha4]; exact i3, by omega, Or.inl (by rw [hst, hact]),
        fun _ => by omega, fun hc => ?_, hperK⟩
      · rw [ha6, ha1]
        simp only [List.length_append, List.length_cons, List.length_nil]
        omega
      · rw [hst, hact] at hc
        cases hc

/-- C9: `total_attempts = current_line_index` is an invariant of the
core — `startInteractiveSession` creates sessions with both fields 0,
every successful `continuePractice` increments both by exactly 1, and on
every reachable session the equality holds, each recorded attempt's
`attempt_number` is the 1-based index of the turn it scored (its position
in the attempt list and in the turn list), and every completed session
has `total_attempts = total_lines ≥ 1`. -/
theorem session_attempts_invariant :
    (∀ userId episodeId character sceneNumber sceneId sessionId sceneText now s r,
      startInteractiveSession userId episodeId character sceneNumber sceneId sessionId
        sceneText now = .ok (s, r) →
      s.total_attempts = 0 ∧ s.current_line_index = 0) ∧
    (∀ env s resp now s' out,
      continuePractice env s resp now = .ok (s', out) →
      s'.total_attempts = s.total_attempts + 1 ∧
      s'.current_line_index = s.current_line_index + 1) ∧
    (∀ s, Reachable s →
      s.total_attempts = s.current_line_index ∧
      (∀ k p, s.session_progress[k]? = some p →
        p.attempt_number = k + 1 ∧
        ∃ turn, (filterUserLines s.dialogue_lines s.character)[k]? = some turn ∧
          p.expected_text = turn.text) ∧
      (s.status = .completed → s.total_attempts = s.total_lines ∧ 1 ≤ s.total_lines)) := by
  refine ⟨?_, ?_, ?_⟩
  · intro userId episodeId character sceneNumber sceneId sessionId sceneText now s r h
    simp only [startInteractiveSession] at h
    cases hu : filterUserLines (parseSceneDialogue sceneText) character with
    | nil => rw [hu] at h; cases h
    | cons f rest =>
      rw [hu] at h
      injection h with hpair
      injection hpair with h1 h2
      subst h1
      exact ⟨rfl, rfl⟩
  · intro env s resp now s' out h
    obtain ⟨hact, turn, hturn, hs'⟩ := continuePractice_ok_inversion env s resp now s' out h
    obtain ⟨ha1, ha2, _⟩ := advanceSession_proj env s resp now turn
    subst hs'
    exact ⟨ha1, ha2⟩
  · intro s h
    obtain ⟨i1, _, _, i4, _, _, i7, i8⟩ := reachable_invariant s h
    exact ⟨i1, i8, fun hc => ⟨by rw [i1, i7 hc], i4⟩⟩

/-- The initial response produced by `startInteractiveSession` on the
two-line scene of `sessionStart`. -/
def respStart : PracticeSessionInitResponse :=
  { session_id := "sid".data
    total_lines := 1
    first_context := "Rachel: hey".data
    user_turn := { expected := "hi".data, speaker := "Ross".data, line_number := 2 } }

set_option maxRecDepth 8000 in
/-- Witness for C9: the invariant facts at the concrete one-turn session
`sessionStart` and its `continuePractice` successor. -/
theorem session_attempts_invariant_witness :
    sessionStart.total_attempts = 0 ∧ sessionStart.current_line_index = 0 ∧
    (advanceSession envFail sessionStart "hi".data 5 turnStart).total_attempts =
      sessionStart.total_attempts + 1 ∧
    (advanceSession envFail sessionStart "hi".data 5 turnStart).current_line_index =
      sessionStart.current_line_index + 1 ∧
    sessionStart.total_attempts = sessionStart.current_line_index := by
  obtain ⟨p1, p2, p3⟩ := session_attempts_invariant
  have hstart : startInteractiveSession "u".data "e1".data "Ross".data 1 "sc".data
      "sid".data "Rachel: hey\nRoss: hi".data 0 = .ok (sessionStart, respStart) := by
    with_unfolding_all rfl
  have h1 := p1 _ _ _ _ _ _ _ _ _ _ hstart
  have hturn : (filterUserLines sessionStart.dialogue_lines
      sessionStart.character)[sessionStart.current_line_index]? = some turnStart := by
    with_unfolding_all rfl
  have hcont := continuePractice_eq envFail sessionStart "hi".data 5 rfl turnStart hturn
  have h2 := p2 envFail sessionStart "hi".data 5 _ _ hcont
  have h3 := p3 sessionStart (Reachable.start _ _ _ _ _ _ _ _ _ _ hstart)
  exact ⟨h1.1, h1.2, h2.1, h2.2, h3.1⟩
